import Mathlib

/-!
Shallow embedding of the deepstream record facade and its argument
normalizers (src/dist/src/record/record.js and src/src/util/utils.ts).

JavaScript runtime values are modelled by `JSValue`; objects and
functions carry a numeric identity so that strict equality (`===`)
can be modelled faithfully (reference equality for objects and
functions, value equality for primitives).  The underlying record
capability is abstract: the facade records every call it forwards to
it in an ordered trace.
-/

/-- A JavaScript runtime value.  Objects and functions carry a `Nat`
identity used for strict (reference) equality; an object additionally
carries its own enumerable properties as an association list. -/
inductive JSValue : Type where
  | vUndefined : JSValue
  | vNull : JSValue
  | vBool (b : Bool) : JSValue
  | vStr (s : String) : JSValue
  | vNum (n : Int) : JSValue
  | vFun (id : Nat) : JSValue
  | vArr (id : Nat) : JSValue
  | vObj (id : Nat) (fields : List (String × JSValue)) : JSValue

/-- The JavaScript `typeof` operator (note `typeof null` is "object"). -/
def typeofStr : JSValue → String
  | .vUndefined => "undefined"
  | .vNull => "object"
  | .vBool _ => "boolean"
  | .vStr _ => "string"
  | .vNum _ => "number"
  | .vFun _ => "function"
  | .vArr _ => "object"
  | .vObj _ _ => "object"

/-- JavaScript strict equality `===`: primitives by value, objects,
arrays and functions by reference identity. -/
def jsEq : JSValue → JSValue → Bool
  | .vUndefined, .vUndefined => true
  | .vNull, .vNull => true
  | .vBool a, .vBool b => a == b
  | .vStr a, .vStr b => a == b
  | .vNum a, .vNum b => a == b
  | .vFun a, .vFun b => a == b
  | .vArr a, .vArr b => a == b
  | .vObj a _, .vObj b _ => a == b
  | _, _ => false

/-- JavaScript truthiness of a value. -/
def jsTruthy : JSValue → Bool
  | .vUndefined => false
  | .vNull => false
  | .vBool b => b
  | .vStr s => !(s.length == 0)
  | .vNum n => !(n == 0)
  | .vFun _ => true
  | .vArr _ => true
  | .vObj _ _ => true

/-- Whether `v.length === 0` would hold (only strings matter here:
the set normalizer only evaluates `.length` on string paths). -/
def jsLenIsZero : JSValue → Bool
  | .vStr s => s.length == 0
  | _ => false

/-- Look up a property in an association list of object fields. -/
def jsLookup : List (String × JSValue) → String → Option JSValue
  | [], _ => none
  | (k, v) :: rest, key => if k == key then some v else jsLookup rest key

/-- JavaScript property assignment `obj[k] = v` on an object's field
list (keys of a JavaScript object are unique): overwrite the property
in place when present, append it otherwise. -/
def objSet : List (String × JSValue) → String → JSValue → List (String × JSValue)
  | [], key, v => [(key, v)]
  | (k, w) :: rest, key, v =>
    if k == key then (key, v) :: rest else (k, w) :: objSet rest key v

/-- JavaScript property read `v.k`.  Reading a property of `null` or
`undefined` throws a TypeError, modelled by `none`; reading a missing
property of anything else yields `undefined`. -/
def getField (v : JSValue) (key : String) : Option JSValue :=
  match v with
  | .vUndefined => none
  | .vNull => none
  | .vObj _ fs => some ((jsLookup fs key).getD .vUndefined)
  | _ => some .vUndefined

/-- Total property read, meaningful on values where `getField`
succeeds (everything but `null` and `undefined`). -/
def getProp (v : JSValue) (key : String) : JSValue :=
  (getField v key).getD .vUndefined

/-- Whether property access on `v` succeeds (is not a TypeError). -/
def hasProps : JSValue → Bool
  | .vUndefined => false
  | .vNull => false
  | _ => true

/-! ### The argument normalizers (src/src/util/utils.ts) -/

/-- `isRootData` from `normalizeSetArguments`:
`data !== undefined && typeof data === "object"`. -/
def isRootData (d : JSValue) : Bool :=
  !(jsEq d .vUndefined) && typeofStr d == "object"

/-- `isNestedData` from `normalizeSetArguments`:
`typeof data !== "function"`. -/
def isNestedData (d : JSValue) : Bool :=
  !(typeofStr d == "function")

/-- `isPath` from `normalizeSetArguments`:
`path !== undefined && typeof path === "string"`. -/
def isPath (p : JSValue) : Bool :=
  !(jsEq p .vUndefined) && typeofStr p == "string"

/-- `isCallback` from `normalizeSetArguments`:
`typeof callback === "function"`. -/
def isCallback (c : JSValue) : Bool :=
  typeofStr c == "function"

/-- The `result` object built by `normalizeSetArguments`; each slot is
`undefined`, the sentinel `false`, or the captured argument, exactly
as in the source. -/
structure SetResult : Type where
  path : JSValue
  data : JSValue
  callback : JSValue

/-- `normalizeSetArguments(args, startIndex)` from utils.ts.  A thrown
`Error(msg)` is modelled as `Except.error msg`. -/
def normalizeSetArguments (args : List JSValue) (startIndex : Nat := 0) :
    Except String SetResult :=
  let a := args.drop startIndex
  let a0 := a.getD 0 .vUndefined
  let a1 := a.getD 1 .vUndefined
  let a2 := a.getD 2 .vUndefined
  let result : Option SetResult :=
    if a.length == 1 then
      some { path := .vUndefined
             data := if isRootData a0 then a0 else .vUndefined
             callback := .vUndefined }
    else if a.length == 2 then
      some { path := if !(isCallback a1) && isNestedData a1 then
                       (if isPath a0 then a0 else .vBool false)
                     else .vUndefined
             data := if isPath a0 then
                       (if isNestedData a1 then a1 else .vUndefined)
                     else
                       (if isRootData a0 then a0 else .vUndefined)
             callback := if !(isPath a0) then
                           (if isCallback a1 then a1 else .vBool false)
                         else .vUndefined }
    else if a.length == 3 then
      some { path := if isPath a0 then a0 else .vBool false
             data := if isNestedData a1 then a1 else .vBool false
             callback := if isCallback a2 then a2 else .vBool false }
    else
      none
  match result with
  | some r =>
    if (!(jsEq r.path .vUndefined) && jsLenIsZero r.path)
        || jsEq r.path (.vBool false) then
      .error "Invalid set path argument"
    else if (jsEq r.data .vUndefined && !(jsTruthy r.path))
        || jsEq r.data (.vBool false) then
      .error "Invalid set data argument"
    else if !(jsEq r.callback .vUndefined) && jsEq r.callback (.vBool false) then
      .error "Invalid set callback argument"
    else
      .ok r
  | none => .error "Invalid set arguments"

/-- The type-sniffing loop of `normalizeArguments`: each argument is
assigned to the slot matching its runtime type, overwriting any
earlier assignment to that slot. -/
def normArgsLoop : List JSValue → List (String × JSValue) → List (String × JSValue)
  | [], fs => fs
  | a :: rest, fs =>
    let fs' :=
      if typeofStr a == "string" then objSet fs "path" a
      else if typeofStr a == "function" then objSet fs "callback" a
      else if typeofStr a == "boolean" then objSet fs "triggerNow" a
      else fs
    normArgsLoop rest fs'

/-- `normalizeArguments(args)` from utils.ts: a single object-typed
argument is returned as-is; otherwise a fresh result object is built
by the type-sniffing loop.  The function contains no validation and
never throws. -/
def normalizeArguments (args : List JSValue) : JSValue :=
  if args.length == 1 && typeofStr (args.headD .vUndefined) == "object" then
    args.headD .vUndefined
  else
    .vObj 0 (normArgsLoop args [])

/-! ### The record facade (src/dist/src/record/record.js) -/

/-- A call the facade forwards to the underlying record capability. -/
inductive CapCall : Type where
  | getCall (path : JSValue) : CapCall
  | setCall (r : SetResult) : CapCall
  | setWithAckCall (r : SetResult) : CapCall
  | subscribeCall (parameters : JSValue) : CapCall
  | unsubscribeCall (parameters : JSValue) : CapCall
  | discardCall : CapCall
  | deleteCall (callback : JSValue) : CapCall
  | mergeCall (strategy : JSValue) : CapCall

/-- The facade's state: its tracked `subscriptions` list and the
ordered trace of calls issued to the underlying capability. -/
structure RecordState : Type where
  subscriptions : List JSValue
  trace : List CapCall

/-- A freshly constructed facade: empty subscription list, no calls
issued yet. -/
def initialRecord : RecordState := { subscriptions := [], trace := [] }

/-- `Record.get(path)`: pure forwarding. -/
def Record.get (st : RecordState) (path : JSValue) : RecordState :=
  { st with trace := st.trace ++ [CapCall.getCall path] }

/-- `Record.set(...)`: normalize, then forward; a normalization error
propagates and the facade state is unchanged. -/
def Record.set (st : RecordState) (args : List JSValue) :
    Except String RecordState :=
  match normalizeSetArguments args with
  | .ok r => .ok { st with trace := st.trace ++ [CapCall.setCall r] }
  | .error e => .error e

/-- `Record.setWithAck(...)`: normalize, then forward. -/
def Record.setWithAck (st : RecordState) (args : List JSValue) :
    Except String RecordState :=
  match normalizeSetArguments args with
  | .ok r => .ok { st with trace := st.trace ++ [CapCall.setWithAckCall r] }
  | .error e => .error e

/-- `Record.subscribe(...)`: normalize, push onto the tracked list,
forward to the capability.  No validation, no throw. -/
def Record.subscribe (st : RecordState) (args : List JSValue) : RecordState :=
  { subscriptions := st.subscriptions ++ [normalizeArguments args]
    trace := st.trace ++ [CapCall.subscribeCall (normalizeArguments args)] }

/-- One evaluation of the filter predicate
`subscription.path !== parameters.path ||
 subscription.callback !== parameters.callback`
(`.ok true` = keep the entry).  Property access on `null`/`undefined`
throws; once the `path` read on a receiver succeeded, the `callback`
read on the same receiver cannot throw, so it is read with `getProp`. -/
def keepTest (parameters sub : JSValue) : Except String Bool :=
  match getField sub "path" with
  | none => .error "TypeError: cannot read properties of null or undefined"
  | some sp =>
    match getField parameters "path" with
    | none => .error "TypeError: cannot read properties of null or undefined"
    | some pp =>
      if !(jsEq sp pp) then .ok true
      else .ok (!(jsEq (getProp sub "callback") (getProp parameters "callback")))

/-- `Array.prototype.filter` over the subscriptions, aborting with the
exception of the first predicate evaluation that throws. -/
def filterKeep (parameters : JSValue) : List JSValue → Except String (List JSValue)
  | [] => .ok []
  | s :: rest =>
    match keepTest parameters s with
    | .error e => .error e
    | .ok b =>
      match filterKeep parameters rest with
      | .error e => .error e
      | .ok kept => .ok (if b then s :: kept else kept)

/-- `Record.unsubscribe(...)`: normalize, drop every tracked entry
whose (path, callback) pair strictly equals the request's, forward to
the capability.  If the filter throws, neither the tracked list nor
the trace changes. -/
def Record.unsubscribe (st : RecordState) (args : List JSValue) :
    Except String RecordState :=
  match filterKeep (normalizeArguments args) st.subscriptions with
  | .error e => .error e
  | .ok subs =>
    .ok { subscriptions := subs
          trace := st.trace ++ [CapCall.unsubscribeCall (normalizeArguments args)] }

/-- `Record.discard()`: issue an unsubscribe to the capability for
every tracked entry in order, then forward the discard.  The tracked
list itself is not modified. -/
def Record.discard (st : RecordState) : RecordState :=
  { subscriptions := st.subscriptions
    trace := st.trace ++ st.subscriptions.map CapCall.unsubscribeCall
               ++ [CapCall.discardCall] }

/-- `Record.delete(callback)`: pure forwarding. -/
def Record.delete (st : RecordState) (callback : JSValue) : RecordState :=
  { st with trace := st.trace ++ [CapCall.deleteCall callback] }

/-- `Record.setMergeStrategy(strategy)`: pure forwarding. -/
def Record.setMergeStrategy (st : RecordState) (strategy : JSValue) : RecordState :=
  { st with trace := st.trace ++ [CapCall.mergeCall strategy] }

/-! ### Derived notions used by the theorems -/

/-- Exact (path, callback) pair equality between a tracked entry and a
normalized request, under JavaScript strict equality. -/
def pairMatches (sub parameters : JSValue) : Bool :=
  jsEq (getProp sub "path") (getProp parameters "path")
    && jsEq (getProp sub "callback") (getProp parameters "callback")

/-- Whether an `Except` result is a success. -/
def isOkE {α : Type} : Except String α → Bool
  | .ok _ => true
  | .error _ => false

/-- Whether an `Except` result is a thrown error. -/
def isErrorE {α : Type} : Except String α → Bool
  | .ok _ => false
  | .error _ => true

/-- A canonical subscribe-request object as described by the spec:
an object whose `callback` is a function, whose `path` is absent or a
string and whose `triggerNow` is absent or a boolean. -/
def isCanonicalSubscribeReq (v : JSValue) : Bool :=
  match v with
  | .vObj _ _ =>
    isCallback (getProp v "callback")
      && (jsEq (getProp v "path") .vUndefined
            || typeofStr (getProp v "path") == "string")
      && (jsEq (getProp v "triggerNow") .vUndefined
            || typeofStr (getProp v "triggerNow") == "boolean")
  | _ => false

/-- The tracked subscription list after an operation that may throw:
on a thrown error the facade state is unchanged (no mutation happens
before the throw in `set`/`setWithAck`), so the list afterwards is the
original one. -/
def subsAfter (st : RecordState) (r : Except String RecordState) : List JSValue :=
  match r with
  | .ok st2 => st2.subscriptions
  | .error _ => st.subscriptions

/-- The last element of a list satisfying `p`, if any: the value a
repeated overwriting assignment would leave behind. -/
def lastMatch (p : JSValue → Bool) : List JSValue → Option JSValue
  | [] => none
  | a :: rest =>
    match lastMatch p rest with
    | some v => some v
    | none => if p a then some a else none

/-! ### Theorems settling the claims -/

/-- C1 counterexample: the claim says the facade's tracked
subscription list is empty after `discard()`.  Concretely, after one
`subscribe("p", f)` followed by `discard()`, the tracked list still
holds the subscription entry, so it is not empty. -/
theorem C1_discard_counterexample :
    (Record.discard (Record.subscribe initialRecord [.vStr "p", .vFun 0])).subscriptions
      = [.vObj 0 [("path", .vStr "p"), ("callback", .vFun 0)]]
    ∧ (Record.discard (Record.subscribe initialRecord [.vStr "p", .vFun 0])).subscriptions
      ≠ [] :=
  ⟨rfl, fun h => List.noConfusion h⟩

/-- C1 amended: a call to `discard()` issues an unsubscribe to the
underlying record capability for every entry tracked at the time of
the call, in tracked order, and then forwards the discard; but the
facade's tracked subscription list is left unchanged afterwards, not
emptied. -/
theorem C1_discard_amended (st : RecordState) :
    Record.discard st
      = { subscriptions := st.subscriptions
          trace := st.trace ++ st.subscriptions.map CapCall.unsubscribeCall
                     ++ [CapCall.discardCall] } :=
  rfl


/-- C1 amended witness: the amended C1 theorem instantiated at a
facade tracking one ("p", f) subscription. -/
theorem C1_discard_amended_witness :
    Record.discard (Record.subscribe initialRecord [.vStr "p", .vFun 0])
      = { subscriptions := (Record.subscribe initialRecord [.vStr "p", .vFun 0]).subscriptions
          trace := (Record.subscribe initialRecord [.vStr "p", .vFun 0]).trace
                     ++ (Record.subscribe initialRecord
                          [.vStr "p", .vFun 0]).subscriptions.map CapCall.unsubscribeCall
                     ++ [CapCall.discardCall] } :=
  C1_discard_amended (Record.subscribe initialRecord [.vStr "p", .vFun 0])

/-- C6 confirmed: the set normalizer follows the documented
disambiguation table on the three listed inputs: ("a/b", obj) yields
path "a/b", data obj, callback undefined; (obj, fn) yields path
undefined, data obj, callback fn; ("p", obj, fn) yields path "p",
data obj, callback fn. -/
theorem C6_set_table :
    normalizeSetArguments [.vStr "a/b", .vObj 1 [("x", .vNum 1)]]
      = .ok { path := .vStr "a/b", data := .vObj 1 [("x", .vNum 1)], callback := .vUndefined }
    ∧ normalizeSetArguments [.vObj 1 [("x", .vNum 1)], .vFun 0]
      = .ok { path := .vUndefined, data := .vObj 1 [("x", .vNum 1)], callback := .vFun 0 }
    ∧ normalizeSetArguments [.vStr "p", .vObj 1 [("x", .vNum 1)], .vFun 0]
      = .ok { path := .vStr "p", data := .vObj 1 [("x", .vNum 1)], callback := .vFun 0 } :=
  ⟨rfl, rfl, rfl⟩

/-- C7 confirmed: for every argument list of length 2 or 3 whose
first slot (the only position the disambiguation rules can assign to
the path) is the empty string, the set normalizer throws a caller
error instead of returning a canonical request; in a 1-argument call
no position can be assigned to the path. -/
theorem C7_empty_path (a1 a2 : JSValue) :
    isErrorE (normalizeSetArguments [.vStr "", a1]) = true
    ∧ isErrorE (normalizeSetArguments [.vStr "", a1, a2]) = true :=
  ⟨by cases a1 <;> rfl, rfl⟩


/-- C7 witness: the C7 theorem instantiated at an object second
argument and a function third argument. -/
theorem C7_empty_path_witness :
    isErrorE (normalizeSetArguments [.vStr "", .vObj 1 []]) = true
    ∧ isErrorE (normalizeSetArguments [.vStr "", .vObj 1 [], .vFun 0]) = true :=
  C7_empty_path (.vObj 1 []) (.vFun 0)

/-- C4 counterexample: the claim says `subscribe` throws on a
non-callable resolved callback, tracking and forwarding nothing.
Concretely, `subscribe("p")` resolves to a request whose callback is
`undefined` (not callable), yet an entry is appended to the tracked
list and a subscribe is forwarded to the capability, and nothing is
thrown. -/
theorem C4_subscribe_counterexample :
    isCallback (getProp (normalizeArguments [.vStr "p"]) "callback") = false
    ∧ (Record.subscribe initialRecord [.vStr "p"]).subscriptions
        = [.vObj 0 [("path", .vStr "p")]]
    ∧ (Record.subscribe initialRecord [.vStr "p"]).subscriptions ≠ []
    ∧ (Record.subscribe initialRecord [.vStr "p"]).trace ≠ [] :=
  ⟨rfl, rfl, fun h => List.noConfusion h, fun h => List.noConfusion h⟩

/-- C4 amended: for every argument list whose resolved callback is
not a callable function, the facade's `subscribe` does not throw: it
performs no validation, appends the normalized request to the tracked
subscription list and forwards it to the underlying capability. -/
theorem C4_subscribe_amended (st : RecordState) (args : List JSValue)
    (_h : isCallback (getProp (normalizeArguments args) "callback") = false) :
    Record.subscribe st args
      = { subscriptions := st.subscriptions ++ [normalizeArguments args]
          trace := st.trace ++ [CapCall.subscribeCall (normalizeArguments args)] } :=
  rfl

/-- C4 witness: the amended C4 theorem instantiated at the concrete
call `subscribe("p")` on a fresh facade. -/
theorem C4_subscribe_witness :
    isCallback (getProp (normalizeArguments [.vStr "p"]) "callback") = false
    ∧ Record.subscribe initialRecord [.vStr "p"]
      = { subscriptions := initialRecord.subscriptions ++ [normalizeArguments [.vStr "p"]]
          trace := initialRecord.trace ++ [CapCall.subscribeCall (normalizeArguments [.vStr "p"])] } :=
  ⟨rfl, C4_subscribe_amended initialRecord [.vStr "p"] rfl⟩

/-- C8 confirmed: a single already-canonical subscribe-request
object passed to the subscribe normalizer is returned unchanged (it
is object-typed, so the pass-through branch fires), and applying the
normalizer to its own output yields the same object (idempotence). -/
theorem C8_passthrough (v : JSValue) (h : isCanonicalSubscribeReq v = true) :
    normalizeArguments [v] = v ∧ normalizeArguments [normalizeArguments [v]] = v := by
  cases v with
  | vObj id fs => exact ⟨rfl, rfl⟩
  | vUndefined => exact Bool.noConfusion h
  | vNull => exact Bool.noConfusion h
  | vBool b => exact Bool.noConfusion h
  | vStr str => exact Bool.noConfusion h
  | vNum n => exact Bool.noConfusion h
  | vFun i => exact Bool.noConfusion h
  | vArr i => exact Bool.noConfusion h

/-- C8 witness: the C8 theorem instantiated at the concrete
canonical request object carrying only a callback function. -/
theorem C8_passthrough_witness :
    isCanonicalSubscribeReq (.vObj 3 [("callback", .vFun 1)]) = true
    ∧ normalizeArguments [.vObj 3 [("callback", .vFun 1)]] = .vObj 3 [("callback", .vFun 1)]
    ∧ normalizeArguments [normalizeArguments [.vObj 3 [("callback", .vFun 1)]]]
      = .vObj 3 [("callback", .vFun 1)] :=
  ⟨rfl, (C8_passthrough (.vObj 3 [("callback", .vFun 1)]) (by rfl)).1,
    (C8_passthrough (.vObj 3 [("callback", .vFun 1)]) (by rfl)).2⟩

/-- C9 confirmed: `get`, `set`, `setWithAck`, `delete` and
`setMergeStrategy` leave the facade's tracked subscription list
unchanged (same entries, same order), whether the set normalization
succeeds or throws. -/
theorem C9_frame (st : RecordState) (p cb ms : JSValue) (args : List JSValue) :
    (Record.get st p).subscriptions = st.subscriptions
    ∧ subsAfter st (Record.set st args) = st.subscriptions
    ∧ subsAfter st (Record.setWithAck st args) = st.subscriptions
    ∧ (Record.delete st cb).subscriptions = st.subscriptions
    ∧ (Record.setMergeStrategy st ms).subscriptions = st.subscriptions := by
  refine ⟨rfl, ?_, ?_, rfl, rfl⟩
  · unfold Record.set subsAfter
    cases normalizeSetArguments args <;> rfl
  · unfold Record.setWithAck subsAfter
    cases normalizeSetArguments args <;> rfl


/-- C9 witness: the C9 theorem instantiated at a fresh facade, a
whole-record get, a root-data set, a delete callback and a merge
strategy. -/
theorem C9_frame_witness :
    (Record.get initialRecord .vUndefined).subscriptions = initialRecord.subscriptions
    ∧ subsAfter initialRecord (Record.set initialRecord [.vObj 1 []])
        = initialRecord.subscriptions
    ∧ subsAfter initialRecord (Record.setWithAck initialRecord [.vObj 1 []])
        = initialRecord.subscriptions
    ∧ (Record.delete initialRecord (.vFun 2)).subscriptions = initialRecord.subscriptions
    ∧ (Record.setMergeStrategy initialRecord (.vFun 3)).subscriptions
        = initialRecord.subscriptions :=
  C9_frame initialRecord .vUndefined (.vFun 2) (.vFun 3) [.vObj 1 []]

/-- C10 counterexample: the claim says the facade's `unsubscribe`
never throws.  Concretely, on a facade with one tracked subscription,
`unsubscribe(null)` passes `null` through the normalizer (typeof null
is "object") and the filter's property access
`parameters.path` then throws a TypeError. -/
theorem C10_unsubscribe_counterexample :
    typeofStr .vNull = "object"
    ∧ Record.unsubscribe (Record.subscribe initialRecord [.vStr "p", .vFun 0]) [.vNull]
      = .error "TypeError: cannot read properties of null or undefined" :=
  ⟨rfl, rfl⟩

/-- C10 amended: the subscribe normalizer performs no validation
and returns any single object-typed argument (including null and
arrays) as-is; the facade's `subscribe` never throws and tracks such
a value as a subscription entry; and `unsubscribe` does not throw
while the tracked list is empty.  (With a non-empty tracked list,
`unsubscribe` can throw a TypeError on a null/undefined request — see
the counterexample.) -/
theorem C10_amended (v : JSValue) (st : RecordState) (args : List JSValue)
    (h : typeofStr v = "object") :
    normalizeArguments [v] = v
    ∧ Record.subscribe st [v]
      = { subscriptions := st.subscriptions ++ [v]
          trace := st.trace ++ [CapCall.subscribeCall v] }
    ∧ (st.subscriptions = [] → isOkE (Record.unsubscribe st args) = true) := by
  have h1 : normalizeArguments [v] = v := by
    simp [normalizeArguments, h]
  refine ⟨h1, ?_, ?_⟩
  · unfold Record.subscribe
    rw [h1]
  · intro he
    unfold Record.unsubscribe
    rw [he]
    rfl

/-- C10 witness: the amended C10 theorem instantiated at the value
`null` and a fresh facade. -/
theorem C10_witness :
    typeofStr .vNull = "object"
    ∧ normalizeArguments [.vNull] = .vNull
    ∧ Record.subscribe initialRecord [.vNull]
      = { subscriptions := initialRecord.subscriptions ++ [.vNull]
          trace := initialRecord.trace ++ [CapCall.subscribeCall .vNull] }
    ∧ isOkE (Record.unsubscribe initialRecord [.vNull]) = true :=
  ⟨rfl, (C10_amended .vNull initialRecord [.vNull] rfl).1,
    (C10_amended .vNull initialRecord [.vNull] rfl).2.1,
    (C10_amended .vNull initialRecord [.vNull] rfl).2.2 rfl⟩

/-- C2 counterexample: the claim says a single `unsubscribe` with an
identical (path, callback) pair removes exactly one of two duplicate
tracked entries, leaving one.  Concretely, after two `subscribe("p", f)`
calls, a single `unsubscribe("p", f)` leaves zero tracked entries, not
one. -/
theorem C2_unsubscribe_counterexample :
    Record.unsubscribe
      (Record.subscribe (Record.subscribe initialRecord [.vStr "p", .vFun 0])
        [.vStr "p", .vFun 0])
      [.vStr "p", .vFun 0]
    = .ok { subscriptions := []
            trace := [CapCall.subscribeCall (.vObj 0 [("path", .vStr "p"), ("callback", .vFun 0)]),
                      CapCall.subscribeCall (.vObj 0 [("path", .vStr "p"), ("callback", .vFun 0)]),
                      CapCall.unsubscribeCall (.vObj 0 [("path", .vStr "p"), ("callback", .vFun 0)])] }
    ∧ ([] : List JSValue).length ≠ 1 :=
  ⟨rfl, by simp⟩

-- ### machinery for C3 / C2 amended

/-- On a value with properties, a property read never throws and
agrees with the total read. -/
theorem getField_of_hasProps (v : JSValue) (h : hasProps v = true) (k : String) :
    getField v k = some (getProp v k) := by
  cases v <;> simp [hasProps] at h <;> rfl

/-- When both the request and the entry support property access, the
filter predicate evaluates without throwing, to "keep exactly when the
(path, callback) pair differs". -/
theorem keepTest_of_hasProps (p s : JSValue) (hp : hasProps p = true)
    (hs : hasProps s = true) :
    keepTest p s = .ok (!(pairMatches s p)) := by
  unfold keepTest pairMatches
  rw [getField_of_hasProps s hs "path", getField_of_hasProps p hp "path"]
  cases he : jsEq (getProp s "path") (getProp p "path") <;> simp [he]

theorem filterKeep_of_hasProps (p : JSValue) (hp : hasProps p = true)
    (xs : List JSValue) (hxs : xs.all hasProps = true) :
    filterKeep p xs = .ok (xs.filter (fun s => !(pairMatches s p))) := by
  induction xs with
  | nil => rfl
  | cons x rest ih =>
    rw [List.all_cons, Bool.and_eq_true] at hxs
    unfold filterKeep
    rw [keepTest_of_hasProps p x hp hxs.1, ih hxs.2]
    by_cases hm : pairMatches x p = true <;> simp [hm, List.filter_cons]

/-- C3 confirmed: whenever the normalized request and every tracked
entry have a readable (path, callback) pair, `unsubscribe` removes
every tracked entry whose pair strictly equals the request's pair
(not just the first match), keeps every entry with a differing pair
in order, and always forwards the normalized request to the
underlying capability's unsubscribe — also when nothing matched. -/
theorem C3_unsubscribe (st : RecordState) (args : List JSValue)
    (hp : hasProps (normalizeArguments args) = true)
    (hs : st.subscriptions.all hasProps = true) :
    Record.unsubscribe st args
      = .ok { subscriptions :=
                st.subscriptions.filter
                  (fun s => !(pairMatches s (normalizeArguments args)))
              trace := st.trace ++ [CapCall.unsubscribeCall (normalizeArguments args)] } := by
  unfold Record.unsubscribe
  rw [filterKeep_of_hasProps (normalizeArguments args) hp st.subscriptions hs]

/-- C3 witness: the C3 theorem instantiated at a facade tracking
one ("p", f) subscription and the call `unsubscribe("p", f)`. -/
theorem C3_unsubscribe_witness :
    hasProps (normalizeArguments [.vStr "p", .vFun 0]) = true
    ∧ (Record.subscribe initialRecord [.vStr "p", .vFun 0]).subscriptions.all hasProps = true
    ∧ Record.unsubscribe (Record.subscribe initialRecord [.vStr "p", .vFun 0])
        [.vStr "p", .vFun 0]
      = .ok { subscriptions :=
                (Record.subscribe initialRecord [.vStr "p", .vFun 0]).subscriptions.filter
                  (fun s => !(pairMatches s (normalizeArguments [.vStr "p", .vFun 0])))
              trace := (Record.subscribe initialRecord [.vStr "p", .vFun 0]).trace
                         ++ [CapCall.unsubscribeCall (normalizeArguments [.vStr "p", .vFun 0])] } :=
  ⟨rfl, rfl, C3_unsubscribe _ _ rfl rfl⟩

theorem keepTest_true_no_match (p s : JSValue) (h : keepTest p s = .ok true) :
    pairMatches s p = false := by
  unfold keepTest at h
  cases hsp : getField s "path" with
  | none => rw [hsp] at h; exact Except.noConfusion h
  | some sp =>
    rw [hsp] at h
    cases hpp : getField p "path" with
    | none => rw [hpp] at h; exact Except.noConfusion h
    | some pp =>
      rw [hpp] at h
      have hif : (if (!(jsEq sp pp)) = true then (Except.ok true : Except String Bool)
          else Except.ok (!(jsEq (getProp s "callback") (getProp p "callback"))))
          = Except.ok true := h
      have h1 : getProp s "path" = sp := by simp [getProp, hsp]
      have h2 : getProp p "path" = pp := by simp [getProp, hpp]
      cases he : jsEq sp pp with
      | false =>
        unfold pairMatches
        rw [h1, h2, he]
        rfl
      | true =>
        rw [he] at hif
        simp at hif
        unfold pairMatches
        rw [h1, h2, he, hif]
        rfl

theorem filterKeep_ok_no_match (p : JSValue) (xs ys : List JSValue)
    (h : filterKeep p xs = .ok ys) :
    ys.all (fun s => !(pairMatches s p)) = true := by
  induction xs generalizing ys with
  | nil =>
    unfold filterKeep at h
    cases h
    rfl
  | cons x rest ih =>
    unfold filterKeep at h
    cases hk : keepTest p x with
    | error e => rw [hk] at h; exact Except.noConfusion h
    | ok b =>
      rw [hk] at h
      cases hf : filterKeep p rest with
      | error e => rw [hf] at h; exact Except.noConfusion h
      | ok kept =>
        rw [hf] at h
        cases b with
        | false =>
          simp at h
          subst h
          exact ih kept hf
        | true =>
          simp at h
          subst h
          rw [List.all_cons, Bool.and_eq_true]
          refine ⟨?_, ih kept hf⟩
          rw [keepTest_true_no_match p x hk]
          rfl

/-- C2 amended: one successful `unsubscribe` removes every tracked
entry whose (path, callback) pair equals the normalized request's
pair — duplicates included — so after one unsubscribe no entry with
that pair survives and no second unsubscribe is needed. -/
theorem C2_unsubscribe_amended (st : RecordState) (args : List JSValue)
    (st2 : RecordState) (h : Record.unsubscribe st args = .ok st2) :
    st2.subscriptions.all
      (fun s => !(pairMatches s (normalizeArguments args))) = true := by
  unfold Record.unsubscribe at h
  cases hf : filterKeep (normalizeArguments args) st.subscriptions with
  | error e => rw [hf] at h; exact Except.noConfusion h
  | ok subs =>
    rw [hf] at h
    cases h
    exact filterKeep_ok_no_match (normalizeArguments args) st.subscriptions subs hf

/-- C2 witness: the amended C2 theorem instantiated at a facade
tracking ("p", f), ("q", f), ("p", f); a single unsubscribe("p", f)
leaves exactly the ("q", f) entry, and no surviving entry matches the
request's pair. -/
theorem C2_unsubscribe_amended_witness :
    Record.unsubscribe
      (Record.subscribe (Record.subscribe (Record.subscribe initialRecord
        [.vStr "p", .vFun 0]) [.vStr "q", .vFun 0]) [.vStr "p", .vFun 0])
      [.vStr "p", .vFun 0]
    = .ok { subscriptions := [.vObj 0 [("path", .vStr "q"), ("callback", .vFun 0)]]
            trace := [CapCall.subscribeCall (.vObj 0 [("path", .vStr "p"), ("callback", .vFun 0)]),
                      CapCall.subscribeCall (.vObj 0 [("path", .vStr "q"), ("callback", .vFun 0)]),
                      CapCall.subscribeCall (.vObj 0 [("path", .vStr "p"), ("callback", .vFun 0)]),
                      CapCall.unsubscribeCall (.vObj 0 [("path", .vStr "p"), ("callback", .vFun 0)])] }
    ∧ ([.vObj 0 [("path", .vStr "q"), ("callback", .vFun 0)]] : List JSValue).all
        (fun s => !(pairMatches s (normalizeArguments [.vStr "p", .vFun 0]))) = true :=
  ⟨rfl,
    C2_unsubscribe_amended
      (Record.subscribe (Record.subscribe (Record.subscribe initialRecord
        [.vStr "p", .vFun 0]) [.vStr "q", .vFun 0]) [.vStr "p", .vFun 0])
      [.vStr "p", .vFun 0]
      { subscriptions := [.vObj 0 [("path", .vStr "q"), ("callback", .vFun 0)]]
        trace := [CapCall.subscribeCall (.vObj 0 [("path", .vStr "p"), ("callback", .vFun 0)]),
                  CapCall.subscribeCall (.vObj 0 [("path", .vStr "q"), ("callback", .vFun 0)]),
                  CapCall.subscribeCall (.vObj 0 [("path", .vStr "p"), ("callback", .vFun 0)]),
                  CapCall.unsubscribeCall (.vObj 0 [("path", .vStr "p"), ("callback", .vFun 0)])] }
      (by rfl)⟩

-- ### machinery for C5

theorem jsLookup_objSet_self (fs : List (String × JSValue)) (key : String) (v : JSValue) :
    jsLookup (objSet fs key v) key = some v := by
  induction fs with
  | nil => simp [objSet, jsLookup]
  | cons kv rest ih =>
    obtain ⟨k, w⟩ := kv
    cases hk : k == key with
    | true => simp [objSet, hk, jsLookup]
    | false => simp [objSet, hk, jsLookup, ih]

theorem jsLookup_objSet_other (fs : List (String × JSValue)) (key key2 : String)
    (v : JSValue) (h : ¬(key2 = key)) :
    jsLookup (objSet fs key2 v) key = jsLookup fs key := by
  induction fs with
  | nil => simp [objSet, jsLookup, h]
  | cons kv rest ih =>
    obtain ⟨k, w⟩ := kv
    cases hk : k == key2 with
    | true =>
      have hkk : k = key2 := by simpa using hk
      subst hkk
      simp [objSet, jsLookup, h]
    | false =>
      simp [objSet, hk, jsLookup, ih]

theorem normArgsLoop_path (args : List JSValue) : ∀ fs,
    jsLookup (normArgsLoop args fs) "path"
      = match lastMatch (fun a => typeofStr a == "string") args with
        | some v => some v
        | none => jsLookup fs "path" := by
  induction args with
  | nil => intro fs; rfl
  | cons a rest ih =>
    intro fs
    unfold normArgsLoop lastMatch
    cases hl : lastMatch (fun a => typeofStr a == "string") rest with
    | some v => rw [ih, hl]
    | none =>
      rw [ih, hl]
      cases a <;>
        simp [typeofStr, jsLookup_objSet_self, jsLookup_objSet_other]

theorem normArgsLoop_callback (args : List JSValue) : ∀ fs,
    jsLookup (normArgsLoop args fs) "callback"
      = match lastMatch (fun a => typeofStr a == "function") args with
        | some v => some v
        | none => jsLookup fs "callback" := by
  induction args with
  | nil => intro fs; rfl
  | cons a rest ih =>
    intro fs
    unfold normArgsLoop lastMatch
    cases hl : lastMatch (fun a => typeofStr a == "function") rest with
    | some v => rw [ih, hl]
    | none =>
      rw [ih, hl]
      cases a <;>
        simp [typeofStr, jsLookup_objSet_self, jsLookup_objSet_other]

theorem normArgsLoop_triggerNow (args : List JSValue) : ∀ fs,
    jsLookup (normArgsLoop args fs) "triggerNow"
      = match lastMatch (fun a => typeofStr a == "boolean") args with
        | some v => some v
        | none => jsLookup fs "triggerNow" := by
  induction args with
  | nil => intro fs; rfl
  | cons a rest ih =>
    intro fs
    unfold normArgsLoop lastMatch
    cases hl : lastMatch (fun a => typeofStr a == "boolean") rest with
    | some v => rw [ih, hl]
    | none =>
      rw [ih, hl]
      cases a <;>
        simp [typeofStr, jsLookup_objSet_self, jsLookup_objSet_other]

/-- C5 counterexample: the claim says the first argument of a
repeated runtime type wins.  Concretely, for the two string arguments
("a", "b") the normalizer assigns the path slot the second string
"b", not the first string "a". -/
theorem C5_counterexample :
    getProp (normalizeArguments [.vStr "a", .vStr "b"]) "path" = .vStr "b"
    ∧ getProp (normalizeArguments [.vStr "a", .vStr "b"]) "path" ≠ .vStr "a" :=
  ⟨rfl, fun h => absurd (JSValue.vStr.inj h) (by decide)⟩

/-- C5 amended: in the scan branch of the subscribe normalizer
(every input except a single object-typed argument), each slot is
determined by the LAST argument of the corresponding runtime type in
scan order — every later argument of an already-captured type
overwrites the earlier one — and a slot with no argument of its type
is absent (undefined). -/
theorem C5_last_wins (args : List JSValue)
    (h : (args.length == 1 && typeofStr (args.headD .vUndefined) == "object") = false) :
    getProp (normalizeArguments args) "path"
      = (lastMatch (fun a => typeofStr a == "string") args).getD .vUndefined
    ∧ getProp (normalizeArguments args) "callback"
      = (lastMatch (fun a => typeofStr a == "function") args).getD .vUndefined
    ∧ getProp (normalizeArguments args) "triggerNow"
      = (lastMatch (fun a => typeofStr a == "boolean") args).getD .vUndefined := by
  have hn : normalizeArguments args = .vObj 0 (normArgsLoop args []) := by
    unfold normalizeArguments
    split
    · rename_i hc
      rw [h] at hc
      exact Bool.noConfusion hc
    · rfl
  rw [hn]
  refine ⟨?_, ?_, ?_⟩
  · show (jsLookup (normArgsLoop args []) "path").getD .vUndefined = _
    rw [normArgsLoop_path args []]
    cases lastMatch (fun a => typeofStr a == "string") args <;> rfl
  · show (jsLookup (normArgsLoop args []) "callback").getD .vUndefined = _
    rw [normArgsLoop_callback args []]
    cases lastMatch (fun a => typeofStr a == "function") args <;> rfl
  · show (jsLookup (normArgsLoop args []) "triggerNow").getD .vUndefined = _
    rw [normArgsLoop_triggerNow args []]
    cases lastMatch (fun a => typeofStr a == "boolean") args <;> rfl

/-- C5 witness: the amended C5 theorem instantiated at the
arguments (f, "p", true). -/
theorem C5_last_wins_witness :
    (([.vFun 0, .vStr "p", .vBool true] : List JSValue).length == 1
        && typeofStr (([.vFun 0, .vStr "p", .vBool true] : List JSValue).headD .vUndefined)
           == "object") = false
    ∧ getProp (normalizeArguments [.vFun 0, .vStr "p", .vBool true]) "path"
        = (lastMatch (fun a => typeofStr a == "string")
            [.vFun 0, .vStr "p", .vBool true]).getD .vUndefined
    ∧ getProp (normalizeArguments [.vFun 0, .vStr "p", .vBool true]) "callback"
        = (lastMatch (fun a => typeofStr a == "function")
            [.vFun 0, .vStr "p", .vBool true]).getD .vUndefined
    ∧ getProp (normalizeArguments [.vFun 0, .vStr "p", .vBool true]) "triggerNow"
        = (lastMatch (fun a => typeofStr a == "boolean")
            [.vFun 0, .vStr "p", .vBool true]).getD .vUndefined :=
  ⟨rfl, (C5_last_wins [.vFun 0, .vStr "p", .vBool true] rfl).1,
    (C5_last_wins [.vFun 0, .vStr "p", .vBool true] rfl).2.1,
    (C5_last_wins [.vFun 0, .vStr "p", .vBool true] rfl).2.2⟩
